import Mathlib

/-!
Shallow embedding of `src/x11/tray_client.cpp` (polybar tray client).

The entity `tray_client` owns a container ("wrapper"/embedder) window into
which an external icon ("client") window is embedded.  We model the member
state as a structure, and each method as a Lean function returning the new
state (when the C++ method is non-`const`) together with the window-system
requests it issues.  Requests are modelled by the inductive `XOp`;
error-checked requests may raise an exception (modelled by a `threw` flag,
driven by an environment `Env` that decides which requests the server
fails), unchecked (fire-and-forget) requests never raise.
-/

namespace TrayModel

/-- The null window handle `XCB_NONE`. -/
def XCB_NONE : Nat := 0

/-- Window sizes as stored in `m_size` (`unsigned int` fields `w`, `h`). -/
structure XSize where
  w : Nat
  h : Nat
deriving DecidableEq, Repr

/-- Cached position `m_pos` (`int` fields `x`, `y`); `operator==` compares
both coordinates. -/
structure Position where
  x : Int
  y : Int
deriving DecidableEq, Repr

/-- Modelled from the spec: `xembed::info` (the embedding-protocol info
snapshot) is not under `src/`; per the spec it carries a version number and
flag bits, at minimum an "embedded" and a "mapped" bit, with an accessor
`is_mapped` returning the mapped bit. -/
structure XembedInfo where
  version : Nat
  embeddedBit : Bool
  mappedBit : Bool
deriving DecidableEq, Repr

/-- Modelled from the spec: accessor for the protocol info's mapped bit. -/
def XembedInfo.is_mapped (i : XembedInfo) : Bool :=
  i.mappedBit

/-- The window-system / collaborator requests the entity can issue. -/
inductive XOp where
  /-- Creation of the wrapper window via `winspec` (size, position, and the
  depth/visual/colormap mirrored from the icon window). -/
  | createWindow (win parent : Nat) (x y : Int) (w h : Nat)
      (depth visual colormap : Nat)
  | createPixmap (depth pixmap drawable : Nat) (w h : Nat)
  | changeWindowAttributes (win : Nat)
  | createGC (gc drawable : Nat)
  | mapWindow (win : Nat)
  | unmapWindow (win : Nat)
  | configureWindow (win : Nat) (x y : Int) (w h : Nat)
  | clearArea (exposures : Bool) (win : Nat) (x y : Int) (w h : Nat)
  /-- Request of a background slice (`background_manager::observe`) for a
  rectangle keyed to a window. -/
  | observeSlice (x y w h : Nat) (win : Nat)
  | reparentWindow (win parent : Nat) (x y : Int)
  | changeSaveSet (win : Nat)
  | sendEvent (win : Nat)
  | xembedNotifyEmbedded (win embedder : Nat) (version : Nat)
  /-- Release of the icon back to `root` (`xembed::unembed`, fire-and-forget
  per the spec's destruction contract). -/
  | unembedClient (win root : Nat)
  /-- Destruction of a window (`connection::destroy_window`, unchecked). -/
  | destroyWindow (win : Nat)
  | ctxClear
  | ctxPaintSource (slice : Nat)
  | ctxPaintOver (color : Nat)
  | surfaceFlush
  | connFlush
deriving DecidableEq, Repr

/-- The environment: which requests the server answers with an error reply,
the root window handle, and the slice handle the background manager returns
on the next `observe` call. -/
structure Env where
  fails : XOp → Bool
  root : Nat
  nextSlice : Nat

/-- The observable outcome of running a method body: the requests issued so
far, and whether an exception from a checked request is propagating. -/
structure RunResult where
  trace : List XOp
  threw : Bool
deriving DecidableEq, Repr

def RunResult.empty : RunResult := ⟨[], false⟩

/-- Issue one request.  While an exception propagates, nothing further runs.
A checked request throws iff the server fails it; an unchecked request never
throws. -/
def issue (env : Env) (checked : Bool) (op : XOp) (r : RunResult) : RunResult :=
  if r.threw then r
  else { trace := r.trace ++ [op], threw := checked && env.fails op }

/-- Sequencing of two run results: if the first threw, the second never
ran. -/
def RunResult.append (r₁ r₂ : RunResult) : RunResult :=
  if r₁.threw then r₁ else ⟨r₁.trace ++ r₂.trace, r₂.threw⟩

/-- The member state of a `tray_client`.  Handles are opaque naturals;
`m_bg_slice` is the handle of the currently referenced background slice. -/
structure tray_client where
  m_client : Nat
  m_wrapper : Nat
  m_size : XSize
  m_desired_background : Nat
  m_pos : Position
  m_mapped : Bool
  m_hidden : Bool
  m_xembed_supported : Bool
  m_xembed : XembedInfo
  m_bg_slice : Nat
deriving DecidableEq, Repr

namespace tray_client

/-- Accessor `width()`: the stored target width. -/
def width (c : tray_client) : Nat := c.m_size.w

/-- Accessor `height()`: the stored target height. -/
def height (c : tray_client) : Nat := c.m_size.h

/-- Accessor `embedder()`: the container/wrapper window handle. -/
def embedder (c : tray_client) : Nat := c.m_wrapper

/-- Accessor `client()`: the icon window handle. -/
def client (c : tray_client) : Nat := c.m_client

/-- The method `match(win)`, i.e. `win == m_client` (named `matches_win`
because `match` is a Lean keyword). -/
def matches_win (c : tray_client) (win : Nat) : Bool :=
  win == c.m_client

/-- Getter `mapped()`. -/
def mapped_get (c : tray_client) : Bool := c.m_mapped

/-- Setter `mapped(bool)`: stores `state` into `m_mapped` (the inequality
guard only suppresses a log line when the value is unchanged). -/
def mapped_set (c : tray_client) (state : Bool) : tray_client :=
  if c.m_mapped != state then { c with m_mapped := state } else c

/-- Setter `hidden(bool)`: pure store into `m_hidden`. -/
def hidden_set (c : tray_client) (state : Bool) : tray_client :=
  { c with m_hidden := state }

/-- Accessor `is_xembed_supported()`. -/
def is_xembed_supported (c : tray_client) : Bool := c.m_xembed_supported

/-- The visibility policy `should_be_mapped()`: false if hidden; else the
xembed mapped bit when xembed is supported; else true. -/
def should_be_mapped (c : tray_client) : Bool :=
  if c.m_hidden then false
  else if c.is_xembed_supported then c.m_xembed.is_mapped
  else true

/-- The request list of `ensure_state()`: it computes `should_be_mapped()`,
returns immediately when it equals `m_mapped`, otherwise maps embedder then
client (or unmaps client then embedder) with checked requests. -/
def ensure_state_ops (c : tray_client) : List XOp :=
  let new_state := c.should_be_mapped
  if new_state == c.m_mapped then []
  else if new_state then
    [XOp.mapWindow c.embedder, XOp.mapWindow c.client]
  else
    [XOp.unmapWindow c.client, XOp.unmapWindow c.embedder]

/-- The method `ensure_state()` as a state transformer: the method is
declared `const` in the source, so it cannot modify any member; the entity
state is returned unchanged alongside the issued requests. -/
def ensure_state (c : tray_client) : tray_client × List XOp :=
  (c, c.ensure_state_ops)

/-- The method `clear_window()`: clear the embedder without generating
exposure events, then the client with exposure events (both checked). -/
def update_bg_run (env : Env) (c : tray_client) : RunResult :=
  let r : RunResult :=
    ⟨[XOp.ctxClear, XOp.ctxPaintSource c.m_bg_slice,
      XOp.ctxPaintOver c.m_desired_background, XOp.surfaceFlush], false⟩
  let r := issue env true (XOp.clearArea false c.embedder 0 0 c.width c.height) r
  let r := issue env true (XOp.clearArea true c.client 0 0 c.width c.height) r
  if r.threw then r else ⟨r.trace ++ [XOp.connFlush], false⟩

/-- The method `observe_background()`: request a slice for the rectangle
`(0, 0, (uint16_t)m_size.w, (uint16_t)m_size.h)` keyed to the embedder
window, store the returned slice in `m_bg_slice`, then `update_bg()`
(composite slice and background color, flush, `clear_window()`, flush the
connection). -/
def observe_background (env : Env) (c : tray_client) :
    tray_client × RunResult :=
  let rectW := c.m_size.w % 65536
  let rectH := c.m_size.h % 65536
  let c' := { c with m_bg_slice := env.nextSlice }
  (c', RunResult.append ⟨[XOp.observeSlice 0 0 rectW rectH c.embedder], false⟩
        (update_bg_run env c'))

/-- The method `set_position(x, y)`: no-op when `(x, y)` equals `m_pos`;
otherwise store the new position, then issue two checked configure requests
(embedder at `(x, y)` with the target size, client at `(0, 0)` with the
target size), then `observe_background()`.  A failing checked request
throws, aborting the rest of the body — the cached position has already
been updated. -/
def set_position (env : Env) (c : tray_client) (x y : Int) :
    tray_client × RunResult :=
  let new_pos : Position := ⟨x, y⟩
  if new_pos == c.m_pos then (c, RunResult.empty)
  else
    let c₁ := { c with m_pos := new_pos }
    let r₁ := issue env true
      (XOp.configureWindow c₁.embedder x y c₁.m_size.w c₁.m_size.h)
      RunResult.empty
    if r₁.threw then (c₁, r₁)
    else
      let r₂ := issue env true
        (XOp.configureWindow c₁.client 0 0 c₁.m_size.w c₁.m_size.h) r₁
      if r₂.threw then (c₁, r₂)
      else
        let res := observe_background env c₁
        (res.1, RunResult.append r₂ res.2)

/-- The destructor `~tray_client()`: if the icon handle is not `XCB_NONE`,
release it via `xembed::unembed`; if the wrapper handle is not `XCB_NONE`,
destroy it via the unchecked `destroy_window`.  Modelled from the spec:
`xembed::unembed` and `connection::destroy_window` are collaborators not
under `src/`; per the spec, destruction "must tolerate failures of either
without throwing", so both are fire-and-forget (unchecked) requests. -/
def destruct (env : Env) (c : tray_client) : RunResult :=
  let r₁ :=
    if c.m_client ≠ XCB_NONE then
      issue env false (XOp.unembedClient c.m_client env.root) RunResult.empty
    else RunResult.empty
  if c.m_wrapper ≠ XCB_NONE then
    issue env false (XOp.destroyWindow c.m_wrapper) r₁
  else r₁

/-- The method `query_xembed()`: overwrites `m_xembed_supported` and
`m_xembed` with the result of `xembed::query` (a collaborator; its result is
an input here). -/
def query_xembed (c : tray_client) (supported : Bool) (info : XembedInfo) :
    tray_client :=
  { c with m_xembed_supported := supported, m_xembed := info }

end tray_client

/-- Construction-time environment: server failures, generated resource ids,
the icon's queried depth/visual/colormap, whether a visual descriptor for
the icon's visual id can be resolved, and the background manager's next
slice handle. -/
structure CtorEnv where
  fails : XOp → Bool
  root : Nat
  nextSlice : Nat
  wrapperId : Nat
  pixmapId : Nat
  gcId : Nat
  clientDepth : Nat
  clientVisual : Nat
  clientColormap : Nat
  visualFound : Bool

def CtorEnv.toEnv (e : CtorEnv) : Env := ⟨e.fails, e.root, e.nextSlice⟩

/-- The constructor: create the wrapper window (inheriting the icon's depth,
visual and colormap), create the backing pixmap, set it as the wrapper's
back pixmap, create a graphics context, resolve the visual descriptor
(construction fails if none is found), then `observe_background()`.  Any
failure aborts construction (no entity is produced).  The member-init list
is from the source; defaults of members initialized in the header are
modelled from the spec: the mapped state is false until `sync_visibility`,
hidden and xembed-support default to off, and the background-slice
reference is null (0) until the first `observe_background`. -/
def construct (env : CtorEnv) (parent win : Nat) (s : XSize)
    (desired_background : Nat) : Option tray_client × RunResult :=
  let c0 : tray_client :=
    { m_client := win, m_wrapper := env.wrapperId, m_size := s
      m_desired_background := desired_background
      m_pos := ⟨0, 0⟩, m_mapped := false, m_hidden := false
      m_xembed_supported := false, m_xembed := ⟨0, false, false⟩
      m_bg_slice := 0 }
  let e := env.toEnv
  let r := issue e true
    (XOp.createWindow env.wrapperId parent 0 0 s.w s.h
      env.clientDepth env.clientVisual env.clientColormap) RunResult.empty
  let r := issue e true
    (XOp.createPixmap env.clientDepth env.pixmapId env.wrapperId s.w s.h) r
  let r := issue e true (XOp.changeWindowAttributes env.wrapperId) r
  let r := issue e true (XOp.createGC env.gcId env.pixmapId) r
  if r.threw then (none, r)
  else if !env.visualFound then (none, ⟨r.trace, true⟩)
  else
    let res := tray_client.observe_background e c0
    let rTotal := RunResult.append r res.2
    (if rTotal.threw then none else some res.1, rTotal)

/-- The width/height carried by a request that configures the geometry of
window `win` (window creation or a configure request), if any. -/
def configSizeOf (win : Nat) : XOp → Option (Nat × Nat)
  | XOp.createWindow w _ _ _ sw sh _ _ _ => if w = win then some (sw, sh) else none
  | XOp.configureWindow w _ _ sw sh => if w = win then some (sw, sh) else none
  | _ => none

/-- The position carried by a request that configures the geometry of window
`win`, if any. -/
def configPosOf (win : Nat) : XOp → Option (Int × Int)
  | XOp.createWindow w _ px py _ _ _ _ _ => if w = win then some (px, py) else none
  | XOp.configureWindow w px py _ _ => if w = win then some (px, py) else none
  | _ => none

/-- The size most recently configured for window `win` over a request
trace, if the trace configures it at all. -/
def lastConfiguredSize (tr : List XOp) (win : Nat) : Option (Nat × Nat) :=
  tr.foldl (fun acc op =>
    match configSizeOf win op with
    | some sz => some sz
    | none => acc) none

/-- The position most recently configured for window `win` over a request
trace, if the trace configures it at all. -/
def lastConfiguredPos (tr : List XOp) (win : Nat) : Option (Int × Int) :=
  tr.foldl (fun acc op =>
    match configPosOf win op with
    | some p => some p
    | none => acc) none

/-- Whether a request is a background-slice request. -/
def isSliceRequest : XOp → Bool
  | XOp.observeSlice _ _ _ _ _ => true
  | _ => false

/-- The state-mutating operations of the exposed interface (the remaining
methods are `const` and by typing cannot change the member state). -/
inductive ApiOp where
  | setMapped (b : Bool)
  | setHidden (b : Bool)
  | queryXembed (supported : Bool) (info : XembedInfo)
  | syncVisibility
  | setPos (x y : Int)
deriving DecidableEq, Repr

/-- Apply one interface operation to the entity state. -/
def applyApi (env : Env) (c : tray_client) : ApiOp → tray_client
  | ApiOp.setMapped b => c.mapped_set b
  | ApiOp.setHidden b => c.hidden_set b
  | ApiOp.queryXembed s i => c.query_xembed s i
  | ApiOp.syncVisibility => (c.ensure_state).1
  | ApiOp.setPos x y => (c.set_position env x y).1

/-- Whether an interface operation is the `mapped(bool)` setter. -/
def ApiOp.isSetMapped : ApiOp → Bool
  | ApiOp.setMapped _ => true
  | _ => false

/-- Run a sequence of interface operations. -/
def runApi (env : Env) (c : tray_client) (ops : List ApiOp) : tray_client :=
  ops.foldl (applyApi env) c

/-- A sample environment in which no request fails. -/
def sampleEnv : Env := ⟨fun _ => false, 0, 7⟩

/-- A sample environment in which every request fails. -/
def failAllEnv : Env := ⟨fun _ => true, 0, 7⟩

/-- A sample entity state: not hidden, xembed unsupported, not mapped. -/
def sampleClient : tray_client :=
  { m_client := 5, m_wrapper := 10, m_size := ⟨22, 22⟩,
    m_desired_background := 4280295456, m_pos := ⟨0, 0⟩, m_mapped := false,
    m_hidden := false, m_xembed_supported := false,
    m_xembed := ⟨0, false, false⟩, m_bg_slice := 3 }

/-- A sample construction environment with no failures. -/
def sampleCtorEnv : CtorEnv :=
  ⟨fun _ => false, 0, 7, 10, 11, 12, 32, 33, 34, true⟩

/-- The entity produced by `construct sampleCtorEnv 3 5 ⟨22, 22⟩ 0`. -/
def sampleConstructed : tray_client :=
  { m_client := 5, m_wrapper := 10, m_size := ⟨22, 22⟩,
    m_desired_background := 0, m_pos := ⟨0, 0⟩, m_mapped := false,
    m_hidden := false, m_xembed_supported := false,
    m_xembed := ⟨0, false, false⟩, m_bg_slice := 7 }

/-! ## Helper lemmas -/

theorem set_position_fst_m_mapped (env : Env) (c : tray_client) (x y : Int) :
    (c.set_position env x y).1.m_mapped = c.m_mapped := by
  simp only [tray_client.set_position, tray_client.observe_background]
  split
  · rfl
  · split
    · rfl
    · split
      · rfl
      · rfl

theorem applyApi_m_mapped (env : Env) (c : tray_client) (op : ApiOp)
    (h : op.isSetMapped = false) :
    (applyApi env c op).m_mapped = c.m_mapped := by
  cases op with
  | setMapped b => simp [ApiOp.isSetMapped] at h
  | setHidden b => rfl
  | queryXembed s i => rfl
  | syncVisibility => rfl
  | setPos x y => exact set_position_fst_m_mapped env c x y

theorem runApi_m_mapped (env : Env) (ops : List ApiOp) :
    ∀ c : tray_client, (∀ op ∈ ops, op.isSetMapped = false) →
      (runApi env c ops).m_mapped = c.m_mapped := by
  induction ops with
  | nil => intro c _; rfl
  | cons op rest ih =>
      intro c h
      have h1 : op.isSetMapped = false := h op (List.mem_cons_self _ _)
      have h2 : ∀ o ∈ rest, o.isSetMapped = false :=
        fun o ho => h o (List.mem_cons_of_mem _ ho)
      have hrun : runApi env c (op :: rest) = runApi env (applyApi env c op) rest := rfl
      rw [hrun, ih _ h2, applyApi_m_mapped env c op h1]

/-! ## Claim theorems -/

/-- C3: `should_be_mapped()` returns false whenever the hidden flag is set;
otherwise, if the embedding protocol is supported it returns the protocol
info's mapped bit; otherwise it returns true. -/
theorem C3_should_be_mapped_policy (c : tray_client) :
    (c.m_hidden = true → c.should_be_mapped = false) ∧
    (c.m_hidden = false → c.m_xembed_supported = true →
      c.should_be_mapped = c.m_xembed.is_mapped) ∧
    (c.m_hidden = false → c.m_xembed_supported = false →
      c.should_be_mapped = true) := by
  cases hhid : c.m_hidden <;> cases hsup : c.m_xembed_supported <;>
    simp [tray_client.should_be_mapped, tray_client.is_xembed_supported, hhid, hsup]

/-- Witness for C3 at concrete states covering all three branches. -/
theorem C3_should_be_mapped_policy_witness :
    ({ sampleClient with m_hidden := true } : tray_client).should_be_mapped = false ∧
    ({ sampleClient with
        m_xembed_supported := true,
        m_xembed := ⟨0, false, true⟩ } : tray_client).should_be_mapped = true ∧
    sampleClient.should_be_mapped = true := by
  refine ⟨(C3_should_be_mapped_policy _).1 rfl, ?_, (C3_should_be_mapped_policy _).2.2 rfl rfl⟩
  have h := (C3_should_be_mapped_policy
    ({ sampleClient with
        m_xembed_supported := true,
        m_xembed := ⟨0, false, true⟩ } : tray_client)).2.1 rfl rfl
  simpa [XembedInfo.is_mapped] using h

/-- C5: in `ensure_state()`, a mapping transition shows the container
(embedder) window before the icon (client) window, and an unmapping
transition hides the icon window before the container window; the request
lists record the issue order. -/
theorem C5_map_unmap_order (c : tray_client) :
    (c.should_be_mapped = true → c.m_mapped = false →
      (c.ensure_state).2 = [XOp.mapWindow c.m_wrapper, XOp.mapWindow c.m_client]) ∧
    (c.should_be_mapped = false → c.m_mapped = true →
      (c.ensure_state).2 = [XOp.unmapWindow c.m_client, XOp.unmapWindow c.m_wrapper]) := by
  constructor <;> intro h1 h2 <;>
    simp [tray_client.ensure_state, tray_client.ensure_state_ops,
      tray_client.embedder, tray_client.client, h1, h2]

/-- Witness for C5: a concrete mapping transition and a concrete unmapping
transition. -/
theorem C5_map_unmap_order_witness :
    (sampleClient.ensure_state).2 =
      [XOp.mapWindow sampleClient.m_wrapper, XOp.mapWindow sampleClient.m_client] ∧
    (({ sampleClient with m_hidden := true, m_mapped := true } : tray_client).ensure_state).2 =
      [XOp.unmapWindow sampleClient.m_client, XOp.unmapWindow sampleClient.m_wrapper] :=
  ⟨(C5_map_unmap_order sampleClient).1 (by decide) (by decide),
   (C5_map_unmap_order _).2 (by decide) (by decide)⟩

/-- C1 counterexample: at a state whose visibility should change,
`ensure_state()` issues window operations but does not update the stored
mapped flag (the method is `const`), and a second consecutive call with no
intervening state change issues the same window operations again — refuting
both "updates the stored mapped flag" and "only the first issues window
operations". -/
theorem C1_ensure_state_counterexample :
    sampleClient.should_be_mapped ≠ sampleClient.m_mapped ∧
    (sampleClient.ensure_state).2 ≠ [] ∧
    ((sampleClient.ensure_state).1).m_mapped ≠ sampleClient.should_be_mapped ∧
    ((sampleClient.ensure_state).1.ensure_state).2 = (sampleClient.ensure_state).2 := by
  decide

/-- C1 amended: `ensure_state()` is a no-op exactly when `should_be_mapped()`
equals the stored mapped flag; otherwise it issues the map/unmap requests
but leaves the entity state — in particular the mapped flag — unchanged
(the flag is updated separately through the `mapped(bool)` setter), so a
second consecutive call issues the same requests again. -/
theorem C1_ensure_state_behavior (c : tray_client) :
    (c.ensure_state).1 = c ∧
    ((c.ensure_state).2 = [] ↔ c.should_be_mapped = c.m_mapped) ∧
    (c.should_be_mapped ≠ c.m_mapped →
      ((c.ensure_state).1.ensure_state).2 = (c.ensure_state).2 ∧
      (c.ensure_state).2 ≠ []) := by
  refine ⟨rfl, ?_, fun h => ⟨rfl, ?_⟩⟩
  · by_cases h : c.should_be_mapped = c.m_mapped
    · simp [tray_client.ensure_state, tray_client.ensure_state_ops, h]
    · cases hs : c.should_be_mapped <;> cases hm : c.m_mapped <;>
        simp_all [tray_client.ensure_state, tray_client.ensure_state_ops]
  · cases hs : c.should_be_mapped <;> cases hm : c.m_mapped <;>
      simp_all [tray_client.ensure_state, tray_client.ensure_state_ops]

/-- Witness for C1 amended at a concrete state with a pending transition. -/
theorem C1_ensure_state_behavior_witness :
    (sampleClient.ensure_state).1 = sampleClient ∧
    (sampleClient.ensure_state).2 ≠ [] :=
  ⟨(C1_ensure_state_behavior sampleClient).1,
   ((C1_ensure_state_behavior sampleClient).2.2 (by decide)).2⟩

/-- C2 counterexample: the exposed `mapped(bool)` setter changes the stored
mapped flag directly, while the state-sync operation `ensure_state()` leaves
it unchanged — the opposite of the claim. -/
theorem C2_mapped_flag_counterexample :
    (sampleClient.mapped_set true).m_mapped = true ∧
    sampleClient.m_mapped = false ∧
    ((sampleClient.ensure_state).1).m_mapped = sampleClient.m_mapped := by
  decide

/-- C2 amended: the stored mapped flag is changed only by the `mapped(bool)`
setter; `ensure_state()` and every other exposed mutating operation — and
hence every sequence avoiding the setter — leave it unchanged. -/
theorem C2_mapped_only_via_setter (env : Env) (c : tray_client) (ops : List ApiOp) :
    (∀ b, (c.mapped_set b).m_mapped = b) ∧
    ((∀ op ∈ ops, op.isSetMapped = false) →
      (runApi env c ops).m_mapped = c.m_mapped) := by
  constructor
  · intro b; cases hb : c.m_mapped <;> cases b <;> simp [tray_client.mapped_set, hb]
  · exact fun h => runApi_m_mapped env ops c h

/-- Witness for C2 amended: a concrete setter call and a concrete
setter-free sequence. -/
theorem C2_mapped_only_via_setter_witness :
    (sampleClient.mapped_set true).m_mapped = true ∧
    (runApi sampleEnv sampleClient
      [ApiOp.setHidden true, ApiOp.syncVisibility, ApiOp.setPos 5 5]).m_mapped =
      sampleClient.m_mapped :=
  ⟨(C2_mapped_only_via_setter sampleEnv sampleClient []).1 true,
   (C2_mapped_only_via_setter sampleEnv sampleClient
      [ApiOp.setHidden true, ApiOp.syncVisibility, ApiOp.setPos 5 5]).2 (by decide)⟩

/-- C4: for every failure environment, the destructor issues the unembed
request and the container-window destruction unconditionally (both are
fire-and-forget), and never throws: even when the server fails the unembed
request, the destroy request is still issued. -/
theorem C4_destruct_best_effort (env : Env) (c : tray_client)
    (h1 : c.m_client ≠ XCB_NONE) (h2 : c.m_wrapper ≠ XCB_NONE) :
    c.destruct env =
      ⟨[XOp.unembedClient c.m_client env.root, XOp.destroyWindow c.m_wrapper],
        false⟩ := by
  simp [tray_client.destruct, issue, RunResult.empty, h1, h2]

/-- Witness for C4 in an environment where every request fails: both cleanup
requests are still issued and nothing throws. -/
theorem C4_destruct_best_effort_witness :
    sampleClient.destruct failAllEnv =
      ⟨[XOp.unembedClient sampleClient.m_client failAllEnv.root,
        XOp.destroyWindow sampleClient.m_wrapper], false⟩ :=
  C4_destruct_best_effort failAllEnv sampleClient (by decide) (by decide)

theorem construct_some_fields (env : CtorEnv) (parent win : Nat) (s : XSize)
    (bg : Nat) (c : tray_client) (r : RunResult)
    (hc : construct env parent win s bg = (some c, r)) :
    c.m_client = win ∧ c.m_wrapper = env.wrapperId ∧ c.m_size = s := by
  simp only [construct, tray_client.observe_background] at hc
  split at hc
  · simp at hc
  · split at hc
    · simp at hc
    · split at hc
      · simp at hc
      · rw [Prod.mk.injEq, Option.some.injEq] at hc
        obtain ⟨h1, -⟩ := hc
        subst h1
        exact ⟨rfl, rfl, rfl⟩

/-- C9: `match(h)` is true exactly when `h` equals the icon window handle
given at construction; since the container handle is a freshly generated id
distinct from the icon handle, `match` is false on it, and false on any
unrelated handle. -/
theorem C9_match_spec (env : CtorEnv) (parent win : Nat) (s : XSize) (bg : Nat)
    (c : tray_client) (r : RunResult)
    (hc : construct env parent win s bg = (some c, r)) :
    (∀ w, c.matches_win w = true ↔ w = win) ∧
    (env.wrapperId ≠ win → c.matches_win c.m_wrapper = false) := by
  obtain ⟨h1, h2, -⟩ := construct_some_fields env parent win s bg c r hc
  constructor
  · intro w
    simp [tray_client.matches_win, h1]
  · intro hne
    simp [tray_client.matches_win, h1, h2]
    exact hne

/-- Witness for C9 at a concrete construction: the icon handle matches, the
container handle does not. -/
theorem C9_match_spec_witness :
    sampleConstructed.matches_win 5 = true ∧
    sampleConstructed.matches_win 10 = false := by
  have h := C9_match_spec sampleCtorEnv 3 5 ⟨22, 22⟩ 0 sampleConstructed
    (construct sampleCtorEnv 3 5 ⟨22, 22⟩ 0).2 (by decide)
  exact ⟨(h.1 5).mpr rfl, h.2 (by decide)⟩

/-- C6 counterexample: immediately after a successful concrete construction
the container window has been configured at the target size `(22, 22)`, but
the icon window has not been configured at all by the entity (it keeps its
pre-embedding geometry until the first `set_position`), so the configured
container and icon sizes are not equal at that point. -/
theorem C6_sizes_counterexample :
    lastConfiguredSize (construct sampleCtorEnv 3 5 ⟨22, 22⟩ 0).2.trace 10 =
      some (22, 22) ∧
    lastConfiguredSize (construct sampleCtorEnv 3 5 ⟨22, 22⟩ 0).2.trace 5 =
      none := by
  decide

/-- C6 amended: construction configures only the container window, at the
stored target size; the icon window is first configured by `set_position`.
After every position-changing `set_position` call the container and the
icon are both configured at the stored target size — equal width/height —
and the icon at offset `(0, 0)` within its container. -/
theorem C6_configured_sizes :
    (∀ (env : CtorEnv) (parent win : Nat) (s : XSize) (bg : Nat),
      (∀ op, env.fails op = false) → env.visualFound = true →
      env.wrapperId ≠ win →
      lastConfiguredSize (construct env parent win s bg).2.trace env.wrapperId =
        some (s.w, s.h) ∧
      lastConfiguredSize (construct env parent win s bg).2.trace win = none) ∧
    (∀ (env : Env) (c : tray_client) (x y : Int),
      (∀ op, env.fails op = false) → (⟨x, y⟩ : Position) ≠ c.m_pos →
      c.m_wrapper ≠ c.m_client →
      lastConfiguredSize (c.set_position env x y).2.trace c.m_wrapper =
        some (c.m_size.w, c.m_size.h) ∧
      lastConfiguredSize (c.set_position env x y).2.trace c.m_client =
        some (c.m_size.w, c.m_size.h) ∧
      lastConfiguredPos (c.set_position env x y).2.trace c.m_client =
        some (0, 0)) := by
  constructor
  · intro env parent win s bg hfail hv hne
    simp [construct, CtorEnv.toEnv, tray_client.observe_background,
      tray_client.update_bg_run, tray_client.embedder, tray_client.client,
      tray_client.width, tray_client.height, issue, RunResult.empty,
      RunResult.append, hfail, hv, lastConfiguredSize, configSizeOf, hne]
  · intro env c x y hfail hpos hne
    refine ⟨?_, ?_, ?_⟩ <;>
      simp [tray_client.set_position, tray_client.observe_background,
        tray_client.update_bg_run, tray_client.embedder, tray_client.client,
        tray_client.width, tray_client.height, issue, RunResult.empty,
        RunResult.append, hfail, hpos, hne, Ne.symm hne,
        lastConfiguredSize, lastConfiguredPos, configSizeOf, configPosOf]

/-- Witness for C6 amended at a concrete construction and a concrete
position change. -/
theorem C6_configured_sizes_witness :
    lastConfiguredSize (construct sampleCtorEnv 3 5 ⟨22, 22⟩ 0).2.trace
      sampleCtorEnv.wrapperId = some (22, 22) ∧
    lastConfiguredSize (sampleClient.set_position sampleEnv 5 5).2.trace
      sampleClient.m_client = some (22, 22) ∧
    lastConfiguredPos (sampleClient.set_position sampleEnv 5 5).2.trace
      sampleClient.m_client = some (0, 0) := by
  have hA := C6_configured_sizes.1 sampleCtorEnv 3 5 ⟨22, 22⟩ 0
    (fun op => rfl) rfl (by decide)
  have hB := C6_configured_sizes.2 sampleEnv sampleClient 5 5
    (fun op => rfl) (by decide) (by decide)
  exact ⟨hA.1, hB.2.1, hB.2.2⟩

/-- C7: a `set_position(x, y)` call with a changed position and no request
failures issues exactly one background-slice request — for the rectangle
`(0, 0, width, height)` keyed to the container window — replaces the stored
slice reference with the newly returned slice, and follows the request with
a recomposite (the full request list records it). -/
theorem C7_set_position_refresh (env : Env) (c : tray_client) (x y : Int)
    (hpos : (⟨x, y⟩ : Position) ≠ c.m_pos)
    (hfail : ∀ op, env.fails op = false)
    (hw : c.m_size.w < 65536) (hh : c.m_size.h < 65536) :
    (c.set_position env x y).2.trace =
      [XOp.configureWindow c.m_wrapper x y c.m_size.w c.m_size.h,
       XOp.configureWindow c.m_client 0 0 c.m_size.w c.m_size.h,
       XOp.observeSlice 0 0 c.m_size.w c.m_size.h c.m_wrapper,
       XOp.ctxClear, XOp.ctxPaintSource env.nextSlice,
       XOp.ctxPaintOver c.m_desired_background, XOp.surfaceFlush,
       XOp.clearArea false c.m_wrapper 0 0 c.m_size.w c.m_size.h,
       XOp.clearArea true c.m_client 0 0 c.m_size.w c.m_size.h,
       XOp.connFlush] ∧
    (c.set_position env x y).2.trace.filter isSliceRequest =
      [XOp.observeSlice 0 0 c.m_size.w c.m_size.h c.m_wrapper] ∧
    (c.set_position env x y).1.m_bg_slice = env.nextSlice ∧
    (c.set_position env x y).2.threw = false := by
  have hmw := Nat.mod_eq_of_lt hw
  have hmh := Nat.mod_eq_of_lt hh
  refine ⟨?_, ?_, ?_, ?_⟩ <;>
    simp [tray_client.set_position, tray_client.observe_background,
      tray_client.update_bg_run, tray_client.embedder, tray_client.client,
      tray_client.width, tray_client.height, issue, RunResult.empty,
      RunResult.append, isSliceRequest, hpos, hfail, hmw, hmh, List.filter]

/-- Witness for C7 at a concrete position change. -/
theorem C7_set_position_refresh_witness :
    (sampleClient.set_position sampleEnv 5 5).2.trace.filter isSliceRequest =
      [XOp.observeSlice 0 0 22 22 10] ∧
    (sampleClient.set_position sampleEnv 5 5).1.m_bg_slice = 7 := by
  have h := C7_set_position_refresh sampleEnv sampleClient 5 5 (by decide)
    (fun op => rfl) (by decide) (by decide)
  exact ⟨h.2.1, h.2.2.1⟩

/-- C8: a `set_position(x, y)` call with the cached position is a complete
no-op: the entity state is returned unchanged and no request of any kind is
issued. -/
theorem C8_set_position_nop (env : Env) (c : tray_client) (x y : Int)
    (h : (⟨x, y⟩ : Position) = c.m_pos) :
    c.set_position env x y = (c, RunResult.empty) := by
  simp [tray_client.set_position, h]

/-- Witness for C8 at the cached position of a concrete entity. -/
theorem C8_set_position_nop_witness :
    sampleClient.set_position sampleEnv 0 0 = (sampleClient, RunResult.empty) :=
  C8_set_position_nop sampleEnv sampleClient 0 0 rfl

/-- C10: a position-changing `set_position(x, y)` stores the new cached
position before issuing any request: when the server fails the (checked)
container configure request, the call throws with the cached position
already holding `(x, y)`, no further request issued, and the background
slice not refreshed — the operation is not atomic on error. -/
theorem C10_set_position_not_atomic (env : Env) (c : tray_client) (x y : Int)
    (hpos : (⟨x, y⟩ : Position) ≠ c.m_pos)
    (hfail : env.fails (XOp.configureWindow c.m_wrapper x y c.m_size.w c.m_size.h) = true) :
    (c.set_position env x y).1.m_pos = ⟨x, y⟩ ∧
    (c.set_position env x y).2.threw = true ∧
    (c.set_position env x y).2.trace =
      [XOp.configureWindow c.m_wrapper x y c.m_size.w c.m_size.h] ∧
    (c.set_position env x y).1.m_bg_slice = c.m_bg_slice := by
  refine ⟨?_, ?_, ?_, ?_⟩ <;>
    simp [tray_client.set_position, tray_client.embedder, issue,
      RunResult.empty, hpos, hfail]

/-- Witness for C10: in an environment failing every request, a concrete
position change throws yet the cached position is already updated. -/
theorem C10_set_position_not_atomic_witness :
    (sampleClient.set_position failAllEnv 5 5).1.m_pos = ⟨5, 5⟩ ∧
    (sampleClient.set_position failAllEnv 5 5).2.threw = true := by
  have h := C10_set_position_not_atomic failAllEnv sampleClient 5 5
    (by decide) rfl
  exact ⟨h.1, h.2.1⟩

end TrayModel
